import Mathlib

/-
Verification of the python-pulsechain client library.

This file gives a shallow embedding of the library's data model and
operations: the parameter validators (validators.py), the HTTP request
handler and its status-code dispatch (req_handler.py), the subpath client
with its bare-list normalization (subclients/subpath_client.py), the
pagination decorator (utils.py), and the resource-client endpoint methods
that the claims exercise (subclients/blocks.py, transactions.py, tokens.py,
smart_contracts.py, addresses.py).

Python values that flow through these functions are modelled by the
inductive `PyValue` (None, strings, lists of strings, ints and dicts);
JSON documents returned by the API are modelled by `Json`.  The HTTP
transport is a parameter (a function from requests to transport results),
and every client operation returns, next to its Python result, the list of
HTTP requests it issued, so that claims about which requests are (or are
not) sent become statements about that list.  Python's keyword-argument
call semantics, which the pagination decorator depends on, are modelled
explicitly by `bindCall`.
-/

namespace PulseChain

/-- A JSON value, as decoded from an API response body. -/
inductive Json where
  | null : Json
  | bool : Bool → Json
  | num : Int → Json
  | str : String → Json
  | arr : List Json → Json
  | obj : List (String × Json) → Json

/-- A Python value as passed between the client functions: None, a string,
an int, a list of strings (the filter arguments), or a dict (query
parameters, next-page cursors and keyword arguments). -/
inductive PyValue where
  | none : PyValue
  | str : String → PyValue
  | int : Int → PyValue
  | strList : List String → PyValue
  | dict : List (String × PyValue) → PyValue

/-- First-occurrence lookup in an association list with string keys,
modelling Python dict lookup (dicts never hold duplicate keys). -/
def lookupStr {α : Type} : List (String × α) → String → Option α
  | [], _ => Option.none
  | (k, v) :: rest, key => if k = key then some v else lookupStr rest key

/-- Python dict item assignment `d[k] = v`: update the existing entry in
place, or append a new one. -/
def setKey : List (String × PyValue) → String → PyValue → List (String × PyValue)
  | [], k, v => [(k, v)]
  | (k0, v0) :: rest, k, v =>
    if k0 = k then (k0, v) :: rest else (k0, v0) :: setKey rest k v

/-- Python truthiness of the modelled values: None is falsy, strings,
lists and dicts are truthy iff non-empty, ints are truthy iff nonzero. -/
def PyValue.truthy : PyValue → Bool
  | PyValue.none => false
  | .str s => !(s == "")
  | .int n => !(n == 0)
  | .strList l => !l.isEmpty
  | .dict d => !d.isEmpty

/-- Iterating a Python value as a sequence of strings (`for x in v`):
a list yields its elements, a string yields its characters as one-character
strings, a dict yields its keys; None and ints are not iterable. -/
def PyValue.asStrIter : PyValue → Option (List String)
  | .strList l => some l
  | .str s => some (s.toList.map (fun c => String.singleton c))
  | .dict d => some (d.map (fun p => p.1))
  | _ => Option.none

/-- Interpolation of a value into an f-string path segment (`str(v)`).
Only string values occur on the paths the claims exercise. -/
def PyValue.fstr : PyValue → String
  | .str s => s
  | .int n => toString n
  | PyValue.none => "None"
  | .strList _ => "[..]"
  | .dict _ => "dict"

/-- The keys of a dict value (empty for non-dicts); used to state which
query-parameter names a request carries. -/
def PyValue.dictKeys : PyValue → List String
  | .dict d => d.map (fun p => p.1)
  | _ => []

/-- The exceptions of exceptions.py, together with the Python built-in
errors (KeyError, TypeError) that the client code can hit, and the raw
httpx exceptions (class name and message) that no clause of the request
handler catches and which therefore propagate to the caller unwrapped. -/
inductive PCError where
  | badParam : String → PCError
  | timeout : String → PCError
  | serverError : PCError
  | unprocessableEntity : Json → PCError
  | badRequest : Json → PCError
  | unknown : String → PCError
  | keyError : String → PCError
  | typeError : String → PCError
  | httpxError : String → String → PCError

/-! Validators, from validators.py.  Each source validator loops over the
input and raises `PulseChainBadParamException` at the first element outside
its allowed set, then joins the whole input with its separator; `validateBy`
captures that shape, with the allowed set, the message and the separator of
each source function. -/

/-- The first element of `xs` outside `allowed` (the element the source
loop raises on), if any. -/
def firstInvalid (allowed : List String) (xs : List String) : Option String :=
  xs.find? (fun x => !(allowed.contains x))

/-- Loop-then-join shape shared by the list validators of validators.py. -/
def validateBy (allowed : List String) (msg sep : String) (xs : List String) :
    Except PCError String :=
  match firstInvalid allowed xs with
  | some _ => .error (.badParam msg)
  | Option.none => .ok (String.intercalate sep xs)

/-- Allowed block types of `validate_block_type`. -/
def valid_block_types : List String := ["block", "uncle", "reorg"]

/-- Allowed transaction types of `validate_txn_type`. -/
def valid_txn_types : List String :=
  ["token_transfer", "contract_creation", "contract_call", "coin_transfer", "token_creation"]

/-- Allowed transaction filters of `validate_txn_filter`. -/
def valid_txn_filters : List String := ["pending", "validated"]

/-- Allowed methods of `validate_method`. -/
def valid_methods : List String := ["approve", "transfer", "multicall", "mint", "commit"]

/-- Allowed token types of `validate_token_type`. -/
def valid_token_types : List String := ["ERC-20", "ERC-721", "ERC-1155"]

/-- Allowed contract filters of `validate_contract_filters`. -/
def valid_contract_filters : List String := ["vyper", "solidity", "yul"]

/-- validators.validate_block_type: comma join. -/
def validate_block_type (block_type : List String) : Except PCError String :=
  validateBy valid_block_types "block_type must be one of block, uncle, or reorg" "," block_type

/-- validators.validate_txn_type: comma join. -/
def validate_txn_type (txn_type : List String) : Except PCError String :=
  validateBy valid_txn_types
    "txn_type must be one of token_transfer, contract_creation, contract_call, coin_transfer, or token_creation"
    "," txn_type

/-- validators.validate_txn_filter: the source joins with the three-character
separator consisting of a space, a pipe and a space. -/
def validate_txn_filter (txn_filter : List String) : Except PCError String :=
  validateBy valid_txn_filters "txn_filter must be either pending or validated" " | " txn_filter

/-- validators.validate_method: comma join. -/
def validate_method (method : List String) : Except PCError String :=
  validateBy valid_methods
    "method must be either approve, transfer, multicall, mint, or commit" "," method

/-- validators.validate_token_type: comma join. -/
def validate_token_type (token_type : List String) : Except PCError String :=
  validateBy valid_token_types "token_type must be one of ERC-20, ERC-721, or ERC-1155" "," token_type

/-- validators.validate_contract_filters: like validate_txn_filter the
source joins with space-pipe-space. -/
def validate_contract_filters (contract_filters : List String) : Except PCError String :=
  validateBy valid_contract_filters "contract_filter must be one of vyper, solidity or yul"
    " | " contract_filters

/-- validators.validate_address_txn_filter: membership test on a single
string, returned unchanged when valid. -/
def validate_address_txn_filter (txn_filter : String) : Except PCError String :=
  if txn_filter = "to" ∨ txn_filter = "from" then .ok txn_filter
  else .error (.badParam "txn_filter must be either to or from")

/-! Request handler, from req_handler.py. -/

/-- An HTTP GET request as issued by `httpx.get(url, params=...)`: the full
URL and the query-parameter value passed along (a dict, or None). -/
structure HttpRequest where
  url : String
  params : PyValue

/-- An HTTP response: status code, decoded JSON body, and the raw body
text (exposed as `response.text`). -/
structure HttpResponse where
  status_code : Nat
  body : Json
  text : String

/-- What the transport layer does with a request: return a response, or
raise one of the httpx timeout exceptions — `httpx.ReadTimeout` (the one
exception the handler catches) or its siblings `httpx.ConnectTimeout`,
`httpx.WriteTimeout` and `httpx.PoolTimeout`, which are not subclasses of
`ReadTimeout` and which the handler does not catch. -/
inductive TransportResult where
  | success : HttpResponse → TransportResult
  | readTimeout : String → TransportResult
  | connectTimeout : String → TransportResult
  | writeTimeout : String → TransportResult
  | poolTimeout : String → TransportResult

/-- The transport layer, a parameter of the model. -/
abbrev Transport := HttpRequest → TransportResult

/-- The request the handler builds for `path`: `base_url + "/" + path` with
the given query parameters. -/
def mkRequest (base_url path : String) (params : PyValue) : HttpRequest :=
  ⟨base_url ++ "/" ++ path, params⟩

/-- Python subscription `j["key"]` on a decoded JSON value: KeyError when
the key is absent, TypeError when the value is not an object. -/
def jsonGet (j : Json) (key : String) : Except PCError Json :=
  match j with
  | .obj fields =>
    match lookupStr fields key with
    | some v => .ok v
    | Option.none => .error (.keyError key)
  | _ => .error (.typeError "value is not subscriptable")

/-- APIRequestHandler._check_result: dispatch on the status code in source
order 200, 500, 422, 400, fallback unknown.  The 422 and 400 exceptions
read `response.json()["message"]` in their constructors; 500 carries the
response without touching the body; the fallback carries the status code
and raw text. -/
def _check_result (response : HttpResponse) : Except PCError Json :=
  if response.status_code = 200 then .ok response.body
  else if response.status_code = 500 then .error .serverError
  else if response.status_code = 422 then
    match jsonGet response.body "message" with
    | .ok m => .error (.unprocessableEntity m)
    | .error e => .error e
  else if response.status_code = 400 then
    match jsonGet response.body "message" with
    | .ok m => .error (.badRequest m)
    | .error e => .error e
  else .error (.unknown (toString response.status_code ++ ": " ++ response.text))

/-- APIRequestHandler.get: issue the GET; the `except httpx.ReadTimeout`
clause turns exactly that exception into `PulseChainTimeoutException`,
every other httpx timeout propagates to the caller as the raw httpx
exception, and a returned response goes through `_check_result`. -/
def request_handler_get (base_url : String) (transport : Transport)
    (path : String) (params : PyValue) : Except PCError Json :=
  match transport (mkRequest base_url path params) with
  | .readTimeout msg => .error (.timeout msg)
  | .connectTimeout msg => .error (.httpxError "ConnectTimeout" msg)
  | .writeTimeout msg => .error (.httpxError "WriteTimeout" msg)
  | .poolTimeout msg => .error (.httpxError "PoolTimeout" msg)
  | .success response => _check_result response

/-! Subpath client, from subclients/subpath_client.py. -/

/-- Bare-list normalization of SubpathClient.get:
`{"items": response} if isinstance(response, list) else response`. -/
def wrap_list_response : Json → Json
  | .arr l => .obj [("items", .arr l)]
  | j => j

/-- The full path of SubpathClient.get:
`f"{subpath}/{path}" if path else subpath`. -/
def full_path_of (subpath : String) (path : Option String) : String :=
  match path with
  | some p => subpath ++ "/" ++ p
  | Option.none => subpath

/-- SubpathClient.get, returning next to its result the one request it
issues through the request handler. -/
def subpath_get (base_url : String) (transport : Transport) (subpath : String)
    (path : Option String) (params : PyValue) :
    Except PCError Json × List HttpRequest :=
  (Except.map wrap_list_response
    (request_handler_get base_url transport (full_path_of subpath path) params),
   [mkRequest base_url (full_path_of subpath path) params])

/-! Response models (models.py) and the pagination decorator (utils.py). -/

/-- models.BaseResponse: holds the `items` value taken from the response. -/
structure BaseResponse where
  items : Json

/-- models.PaginatedResponse: items plus the `next_page_params` cursor. -/
structure PaginatedResponse where
  items : Json
  next_page_params : Json

/-- The result of a wrapped endpoint body: its Python return value (or the
exception it raised) together with the HTTP requests it issued. -/
abbrev BodyResult := Except PCError (BaseResponse × Json) × List HttpRequest

/-- Repackaging done by the `paginated` wrapper on the wrapped function's
return value: `PaginatedResponse(items=base_response.items,
next_page_params=next_page_params)`; exceptions propagate. -/
def page_wrap1 : Except PCError (BaseResponse × Json) → Except PCError PaginatedResponse
  | .ok (base_response, next_page_params) => .ok ⟨base_response.items, next_page_params⟩
  | .error e => .error e

/-- utils.paginated: the wrapper pops `next_page_params` from the keyword
arguments (default `{}`), calls the wrapped function as
`func(self, *args, params=params)` — discarding every other keyword
argument — and repackages the result.  `func` here is the wrapped function
already applied to its Python-call binding (see `make_wrapped`). -/
def paginated_call (func : List PyValue → PyValue → BodyResult)
    (args : List PyValue) (kwargs : List (String × PyValue)) :
    Except PCError PaginatedResponse × List HttpRequest :=
  let r := func args ((lookupStr kwargs "next_page_params").getD (PyValue.dict []))
  (page_wrap1 r.1, r.2)

/-! Python call semantics.  The wrapper's call `func(self, *args,
params=params)` is bound against the wrapped function's signature by the
usual CPython rules; `bindCall` implements them for signatures made of
positional-or-keyword parameters with optional defaults, plus an optional
`**kwargs` catch-all. -/

/-- A Python function signature (after `self`): parameter names in order,
the defaulted ones with their default values, and whether the signature
ends in `**kwargs`. -/
structure PySig where
  names : List String
  defaults : List (String × PyValue)
  has_kwargs : Bool

/-- Bind positional arguments to parameter names in order; `none` when
there are more arguments than parameters (TypeError in Python). -/
def bindPositional : List String → List PyValue → Option (List (String × PyValue))
  | _, [] => some []
  | [], _ :: _ => Option.none
  | n :: ns, a :: rest => (bindPositional ns rest).map (fun b => (n, a) :: b)

/-- Bind keyword arguments: a keyword naming a parameter binds it (TypeError
if already bound positionally); anything else goes to `**kwargs` when the
signature has one and is a TypeError otherwise.  Returns the bindings and
the `**kwargs` leftovers. -/
def bindKeywords (sig : PySig) : List (String × PyValue) → List (String × PyValue) →
    Except PCError (List (String × PyValue) × List (String × PyValue))
  | bound, [] => .ok (bound, [])
  | bound, (k, v) :: rest =>
    if sig.names.contains k then
      if bound.any (fun p => p.1 == k) then
        .error (.typeError ("got multiple values for argument " ++ k))
      else bindKeywords sig (bound ++ [(k, v)]) rest
    else if sig.has_kwargs then
      match bindKeywords sig bound rest with
      | .error e => .error e
      | .ok (b, extra) => .ok (b, (k, v) :: extra)
    else .error (.typeError ("got an unexpected keyword argument " ++ k))

/-- Fill unbound parameters from their defaults; a missing required
parameter is a TypeError. -/
def fillDefaults (sig : PySig) (bound : List (String × PyValue)) :
    List String → Except PCError (List (String × PyValue))
  | [] => .ok bound
  | n :: ns =>
    if bound.any (fun p => p.1 == n) then fillDefaults sig bound ns
    else
      match lookupStr sig.defaults n with
      | some d => fillDefaults sig (bound ++ [(n, d)]) ns
      | Option.none => .error (.typeError ("missing a required argument " ++ n))

/-- Full binding of a Python call against a signature. -/
def bindCall (sig : PySig) (args : List PyValue) (kwargs : List (String × PyValue)) :
    Except PCError (List (String × PyValue) × List (String × PyValue)) :=
  match bindPositional sig.names args with
  | Option.none => .error (.typeError "too many positional arguments")
  | some bound =>
    match bindKeywords sig bound kwargs with
    | .error e => .error e
    | .ok (bound2, extra) =>
      match fillDefaults sig bound2 sig.names with
      | .error e => .error e
      | .ok env => .ok (env, extra)

/-- The value bound to a parameter name after `bindCall`. -/
def getArg (env : List (String × PyValue)) (name : String) : PyValue :=
  (lookupStr env name).getD PyValue.none

/-- Turn a signature and an endpoint body into the `func` the wrapper
calls: bind `func(self, *args, params=params)` and run the body on the
resulting environment; a binding error is raised before the body runs, so
no request is issued. -/
def make_wrapped (sig : PySig)
    (body : List (String × PyValue) → List (String × PyValue) → BodyResult) :
    List PyValue → PyValue → BodyResult :=
  fun args params =>
    match bindCall sig args [("params", params)] with
    | .error e => (.error e, [])
    | .ok (env, extra) => body env extra

/-! Shared pieces of the endpoint bodies. -/

/-- Python dict item assignment on a value: TypeError off dicts. -/
def setItem (params : PyValue) (key : String) (v : PyValue) : Except PCError PyValue :=
  match params with
  | .dict d => .ok (.dict (setKey d key v))
  | _ => .error (.typeError "object does not support item assignment")

/-- The `if some_filter: params[key] = validate(some_filter)` pattern of the
endpoint bodies, for validators taking a list: skipped when the filter is
falsy; the validator runs (and can raise) before the assignment. -/
def addListFilter (params : PyValue) (key : String) (v : PyValue)
    (validator : List String → Except PCError String) : Except PCError PyValue :=
  if v.truthy then
    match v.asStrIter with
    | some l =>
      match validator l with
      | .error e => .error e
      | .ok s => setItem params key (.str s)
    | Option.none => .error (.typeError "argument is not iterable")
  else .ok params

/-- validate_address_txn_filter applied to a Python value: a non-string is
simply not a member of the allowed set. -/
def validate_address_txn_filter_py : PyValue → Except PCError String
  | .str s => validate_address_txn_filter s
  | _ => .error (.badParam "txn_filter must be either to or from")

/-- The `if txn_filter: params["filter"] = validate_address_txn_filter(...)`
pattern, for the single-string address filter. -/
def addStrFilter (params : PyValue) (key : String) (v : PyValue) : Except PCError PyValue :=
  if v.truthy then
    match validate_address_txn_filter_py v with
    | .error e => .error e
    | .ok s => setItem params key (.str s)
  else .ok params

/-- The common tail of the wrapped endpoint bodies:
`return BaseResponse(items=response["items"]), response["next_page_params"]`,
with the subscriptions evaluated left to right. -/
def finishPage (result : Except PCError Json) : Except PCError (BaseResponse × Json) :=
  match result with
  | .error e => .error e
  | .ok response =>
    match jsonGet response "items" with
    | .error e => .error e
    | .ok items =>
      match jsonGet response "next_page_params" with
      | .error e => .error e
      | .ok next_page_params => .ok (⟨items⟩, next_page_params)

/-! Resource-client endpoint methods.  Each `..._body` is the undecorated
source function run on a bound environment (`env`) and the `**kwargs`
leftovers (`extra`); each plain definition is the method as callers see it,
i.e. the body under the `paginated` wrapper. -/

/-- Signature of TransactionsClient.get_transactions:
`(self, txn_filter=None, txn_type=None, method=None, params=None)`. -/
def transactionsSig : PySig :=
  ⟨["txn_filter", "txn_type", "method", "params"],
   [("txn_filter", PyValue.none), ("txn_type", PyValue.none),
    ("method", PyValue.none), ("params", PyValue.none)], false⟩

/-- Body of TransactionsClient.get_transactions: the filters are added only
under `if params:` — when the params seed is falsy they are silently
skipped — then `self.get(params=params)` on the bare subpath. -/
def transactions_get_transactions_body (base_url : String) (transport : Transport)
    (env _extra : List (String × PyValue)) : BodyResult :=
  let txn_filter := getArg env "txn_filter"
  let txn_type := getArg env "txn_type"
  let method := getArg env "method"
  let params := getArg env "params"
  let paramsE : Except PCError PyValue :=
    if params.truthy then
      match addListFilter params "filter" txn_filter validate_txn_filter with
      | .error e => .error e
      | .ok p1 =>
        match addListFilter p1 "tx_type" txn_type validate_txn_type with
        | .error e => .error e
        | .ok p2 => addListFilter p2 "method" method validate_method
    else .ok params
  match paramsE with
  | .error e => (.error e, [])
  | .ok p =>
    let r := subpath_get base_url transport "transactions" Option.none p
    (finishPage r.1, r.2)

/-- TransactionsClient.get_transactions as callers see it (decorated). -/
def transactions_get_transactions (base_url : String) (transport : Transport)
    (args : List PyValue) (kwargs : List (String × PyValue)) :
    Except PCError PaginatedResponse × List HttpRequest :=
  paginated_call
    (make_wrapped transactionsSig (transactions_get_transactions_body base_url transport))
    args kwargs

/-- Signature of BlocksClient.get_blocks: `(self, block_type=None, params=None)`. -/
def blocksSig : PySig :=
  ⟨["block_type", "params"], [("block_type", PyValue.none), ("params", PyValue.none)], false⟩

/-- Body of BlocksClient.get_blocks: `params = params or {}`, then
`if block_type: params["type"] = validate_block_type(block_type)`, then
`self.get(params=params)`. -/
def blocks_get_blocks_body (base_url : String) (transport : Transport)
    (env _extra : List (String × PyValue)) : BodyResult :=
  let block_type := getArg env "block_type"
  let params0 := getArg env "params"
  let params := if params0.truthy then params0 else PyValue.dict []
  match addListFilter params "type" block_type validate_block_type with
  | .error e => (.error e, [])
  | .ok p =>
    let r := subpath_get base_url transport "blocks" Option.none p
    (finishPage r.1, r.2)

/-- BlocksClient.get_blocks as callers see it (decorated). -/
def blocks_get_blocks (base_url : String) (transport : Transport)
    (args : List PyValue) (kwargs : List (String × PyValue)) :
    Except PCError PaginatedResponse × List HttpRequest :=
  paginated_call (make_wrapped blocksSig (blocks_get_blocks_body base_url transport))
    args kwargs

/-- Signature of TokensClient.get_tokens:
`(self, name_query, token_type=None, params=None)`. -/
def tokensSig : PySig :=
  ⟨["name_query", "token_type", "params"],
   [("token_type", PyValue.none), ("params", PyValue.none)], false⟩

/-- Body of TokensClient.get_tokens: `params = params or {}`,
`params["q"] = name_query`, optional token-type filter, then
`self.get(params=params)`. -/
def tokens_get_tokens_body (base_url : String) (transport : Transport)
    (env _extra : List (String × PyValue)) : BodyResult :=
  let name_query := getArg env "name_query"
  let token_type := getArg env "token_type"
  let params0 := getArg env "params"
  let params1 := if params0.truthy then params0 else PyValue.dict []
  match setItem params1 "q" name_query with
  | .error e => (.error e, [])
  | .ok p1 =>
    match addListFilter p1 "type" token_type validate_token_type with
    | .error e => (.error e, [])
    | .ok p =>
      let r := subpath_get base_url transport "tokens" Option.none p
      (finishPage r.1, r.2)

/-- TokensClient.get_tokens as callers see it (decorated). -/
def tokens_get_tokens (base_url : String) (transport : Transport)
    (args : List PyValue) (kwargs : List (String × PyValue)) :
    Except PCError PaginatedResponse × List HttpRequest :=
  paginated_call (make_wrapped tokensSig (tokens_get_tokens_body base_url transport))
    args kwargs

/-- Signature of SmartContractsClient.get_smart_contracts:
`(self, query, contract_filters=None)` — it accepts no `params` parameter
and has no `**kwargs`. -/
def smartContractsSig : PySig :=
  ⟨["query", "contract_filters"], [("contract_filters", PyValue.none)], false⟩

/-- Body of SmartContractsClient.get_smart_contracts:
`params = {"q": query}`, optional contract filter, `self.get(params=params)`. -/
def smart_contracts_get_smart_contracts_body (base_url : String) (transport : Transport)
    (env _extra : List (String × PyValue)) : BodyResult :=
  let query := getArg env "query"
  let contract_filters := getArg env "contract_filters"
  let params := PyValue.dict [("q", query)]
  match addListFilter params "filter" contract_filters validate_contract_filters with
  | .error e => (.error e, [])
  | .ok p =>
    let r := subpath_get base_url transport "smart-contracts" Option.none p
    (finishPage r.1, r.2)

/-- SmartContractsClient.get_smart_contracts as callers see it (decorated). -/
def smart_contracts_get_smart_contracts (base_url : String) (transport : Transport)
    (args : List PyValue) (kwargs : List (String × PyValue)) :
    Except PCError PaginatedResponse × List HttpRequest :=
  paginated_call
    (make_wrapped smartContractsSig
      (smart_contracts_get_smart_contracts_body base_url transport))
    args kwargs

/-- Signature of AddressesClient.get_token_transfers:
`(self, address, token_type=None, txn_filter=None, token=None, **kwargs)`. -/
def addressesTokenTransfersSig : PySig :=
  ⟨["address", "token_type", "txn_filter", "token"],
   [("token_type", PyValue.none), ("txn_filter", PyValue.none), ("token", PyValue.none)], true⟩

/-- Body of AddressesClient.get_token_transfers:
`params = kwargs.pop("params", {})`, token-type filter, address filter,
optional token field, then `self.get(f"{address}/token-transfers",
params=params)`. -/
def addresses_get_token_transfers_body (base_url : String) (transport : Transport)
    (env extra : List (String × PyValue)) : BodyResult :=
  let address := getArg env "address"
  let token_type := getArg env "token_type"
  let txn_filter := getArg env "txn_filter"
  let token := getArg env "token"
  let params := (lookupStr extra "params").getD (PyValue.dict [])
  let step : Except PCError PyValue :=
    match addListFilter params "token_type" token_type validate_token_type with
    | .error e => .error e
    | .ok p1 =>
      match addStrFilter p1 "filter" txn_filter with
      | .error e => .error e
      | .ok p2 => if token.truthy then setItem p2 "token" token else .ok p2
  match step with
  | .error e => (.error e, [])
  | .ok p =>
    let r := subpath_get base_url transport "addresses"
      (some (address.fstr ++ "/token-transfers")) p
    (finishPage r.1, r.2)

/-- AddressesClient.get_token_transfers as callers see it (decorated). -/
def addresses_get_token_transfers (base_url : String) (transport : Transport)
    (args : List PyValue) (kwargs : List (String × PyValue)) :
    Except PCError PaginatedResponse × List HttpRequest :=
  paginated_call
    (make_wrapped addressesTokenTransfersSig
      (addresses_get_token_transfers_body base_url transport))
    args kwargs

/-- A transport that answers every request with an empty successful page;
used to instantiate theorems at concrete inputs. -/
def okTransport : Transport :=
  fun _ => TransportResult.success
    ⟨200, Json.obj [("items", Json.arr []), ("next_page_params", Json.null)], "page"⟩

/-- Substring containment on strings, as containment of character lists. -/
def strContains (s sub : String) : Prop := List.IsInfix sub.data s.data

theorem firstInvalid_eq_none_iff (allowed xs : List String) :
    firstInvalid allowed xs = Option.none ↔ xs.all allowed.contains = true := by
  unfold firstInvalid
  rw [List.find?_eq_none, List.all_eq_true]
  constructor
  · intro h x hx
    have := h x hx
    simpa using this
  · intro h x hx
    simpa using h x hx

theorem validateBy_eq_if (allowed : List String) (msg sep : String) (xs : List String) :
    validateBy allowed msg sep xs =
      if xs.all allowed.contains then Except.ok (String.intercalate sep xs)
      else Except.error (PCError.badParam msg) := by
  unfold validateBy
  rcases h : firstInvalid allowed xs with _ | y
  · rw [if_pos ((firstInvalid_eq_none_iff allowed xs).mp h)]
  · have : ¬ xs.all allowed.contains = true := by
      intro hall
      rw [← firstInvalid_eq_none_iff allowed xs] at hall
      rw [h] at hall
      exact Option.noConfusion hall
    rw [if_neg this]

theorem string_data_append (s t : String) : (s ++ t).data = s.data ++ t.data := by
  cases s
  cases t
  rfl

/-! Claim theorems. -/

/-- C5 (counterexample): `validate_txn_filter` does not join valid inputs
with the pipe character: on `["pending", "validated"]` it returns
`"pending | validated"`, whose separator is space-pipe-space, not the
pipe-joined string `"pending|validated"`. -/
theorem C5_counterexample :
    validate_txn_filter ["pending", "validated"] = .ok "pending | validated" ∧
    "pending | validated" ≠ String.intercalate "|" ["pending", "validated"] :=
  ⟨rfl, by decide⟩

/-- C5 (amended): for every validator, any element outside the allowed set
raises `PulseChainBadParamException` and every all-valid input is accepted
and joined with the endpoint's separator — a comma for block_type,
txn_type, method and token_type, and the three-character separator
`" | "` (a pipe surrounded by spaces) for the transaction filter and
contract filters; the single-string address filter is returned unchanged
when it is `to` or `from` and rejected otherwise. -/
theorem C5_validator_sets_and_separators (xs : List String) (s : String) :
    (validate_block_type xs =
      if xs.all valid_block_types.contains then .ok (String.intercalate "," xs)
      else .error (.badParam "block_type must be one of block, uncle, or reorg")) ∧
    (validate_txn_type xs =
      if xs.all valid_txn_types.contains then .ok (String.intercalate "," xs)
      else .error (.badParam
        "txn_type must be one of token_transfer, contract_creation, contract_call, coin_transfer, or token_creation")) ∧
    (validate_method xs =
      if xs.all valid_methods.contains then .ok (String.intercalate "," xs)
      else .error (.badParam "method must be either approve, transfer, multicall, mint, or commit")) ∧
    (validate_token_type xs =
      if xs.all valid_token_types.contains then .ok (String.intercalate "," xs)
      else .error (.badParam "token_type must be one of ERC-20, ERC-721, or ERC-1155")) ∧
    (validate_txn_filter xs =
      if xs.all valid_txn_filters.contains then .ok (String.intercalate " | " xs)
      else .error (.badParam "txn_filter must be either pending or validated")) ∧
    (validate_contract_filters xs =
      if xs.all valid_contract_filters.contains then .ok (String.intercalate " | " xs)
      else .error (.badParam "contract_filter must be one of vyper, solidity or yul")) ∧
    (validate_address_txn_filter s =
      if s = "to" ∨ s = "from" then .ok s
      else .error (.badParam "txn_filter must be either to or from")) := by
  refine ⟨?_, ?_, ?_, ?_, ?_, ?_, rfl⟩
  · exact validateBy_eq_if _ _ _ xs
  · exact validateBy_eq_if _ _ _ xs
  · exact validateBy_eq_if _ _ _ xs
  · exact validateBy_eq_if _ _ _ xs
  · exact validateBy_eq_if _ _ _ xs
  · exact validateBy_eq_if _ _ _ xs

/-- C6: the status-code dispatch of `APIRequestHandler._check_result`:
200 returns the decoded body; 400 raises the bad-request error carrying
the body's message field; 422 analogously the unprocessable-entity error;
500 raises the server error for any body, message or not; and every other
status raises the unknown error whose description is the status code, a
colon-space, and the raw body text — so it contains both. -/
theorem C6_status_code_mapping :
    (∀ r : HttpResponse, r.status_code = 200 → _check_result r = .ok r.body) ∧
    (∀ (body : Json) (text : String) (m : Json), jsonGet body "message" = .ok m →
      _check_result ⟨400, body, text⟩ = .error (.badRequest m)) ∧
    (∀ (body : Json) (text : String) (m : Json), jsonGet body "message" = .ok m →
      _check_result ⟨422, body, text⟩ = .error (.unprocessableEntity m)) ∧
    (∀ (body : Json) (text : String), _check_result ⟨500, body, text⟩ = .error .serverError) ∧
    (∀ r : HttpResponse, r.status_code ∉ ([200, 400, 422, 500] : List Nat) →
      _check_result r = .error (.unknown (toString r.status_code ++ ": " ++ r.text)) ∧
      strContains (toString r.status_code ++ ": " ++ r.text) (toString r.status_code) ∧
      strContains (toString r.status_code ++ ": " ++ r.text) r.text) := by
  refine ⟨?_, ?_, ?_, ?_, ?_⟩
  · intro r h
    simp [_check_result, h]
  · intro body text m hm
    simp [_check_result, hm]
  · intro body text m hm
    simp [_check_result, hm]
  · intro body text
    simp [_check_result]
  · intro r h
    simp only [List.mem_cons, List.not_mem_nil, or_false, not_or] at h
    obtain ⟨h200, h400, h422, h500⟩ := h
    refine ⟨by simp [_check_result, h200, h400, h422, h500], ?_, ?_⟩
    · exact ⟨[], (": " ++ r.text).data, by simp [string_data_append, List.append_assoc]⟩
    · exact ⟨(toString r.status_code ++ ": ").data, [], by simp [string_data_append]⟩

/-- Witness for C6: the mapping evaluated at one concrete response per
status: 200 with a page body, 400 and 422 with body message `"bad"`,
500 with a null body, and the unmapped 503 whose description is
`"503: oops"` and so contains `"503"` and the raw text `"oops"`. -/
theorem C6_status_code_mapping_witness :
    _check_result ⟨200, Json.obj [("items", Json.arr [])], "page"⟩ =
      .ok (Json.obj [("items", Json.arr [])]) ∧
    _check_result ⟨400, Json.obj [("message", Json.str "bad")], "raw"⟩ =
      .error (.badRequest (Json.str "bad")) ∧
    _check_result ⟨422, Json.obj [("message", Json.str "bad")], "raw"⟩ =
      .error (.unprocessableEntity (Json.str "bad")) ∧
    _check_result ⟨500, Json.null, "raw"⟩ = .error .serverError ∧
    (_check_result ⟨503, Json.null, "oops"⟩ = .error (.unknown "503: oops") ∧
      strContains "503: oops" "503" ∧ strContains "503: oops" "oops") :=
  ⟨C6_status_code_mapping.1 ⟨200, Json.obj [("items", Json.arr [])], "page"⟩ rfl,
   C6_status_code_mapping.2.1 (Json.obj [("message", Json.str "bad")]) "raw" (Json.str "bad") rfl,
   C6_status_code_mapping.2.2.1 (Json.obj [("message", Json.str "bad")]) "raw" (Json.str "bad") rfl,
   C6_status_code_mapping.2.2.2.1 Json.null "raw",
   C6_status_code_mapping.2.2.2.2 ⟨503, Json.null, "oops"⟩ (by decide)⟩

/-- C9 (counterexample): not every transport timeout yields the dedicated
timeout error: a GET whose transport raises `httpx.ConnectTimeout` — a
transport-layer timeout that the handler's `except httpx.ReadTimeout`
clause does not catch — reaches the caller as the raw httpx exception,
not as `PulseChainTimeoutException` wrapping the transport message. -/
theorem C9_counterexample :
    request_handler_get "https://api"
        (fun _ => TransportResult.connectTimeout "connect timed out") "blocks" PyValue.none =
      .error (.httpxError "ConnectTimeout" "connect timed out") ∧
    request_handler_get "https://api"
        (fun _ => TransportResult.connectTimeout "connect timed out") "blocks" PyValue.none ≠
      .error (.timeout "connect timed out") := by
  refine ⟨rfl, fun hc => ?_⟩
  have h2 : Except.error (PCError.httpxError "ConnectTimeout" "connect timed out") =
      (Except.error (PCError.timeout "connect timed out") : Except PCError Json) := hc
  exact PCError.noConfusion (Except.error.inj h2)

/-- C9 (amended): the handler catches exactly `httpx.ReadTimeout`: a read
timeout surfaces as the dedicated `PulseChainTimeoutException` wrapping
the transport message and never as the generic unknown error, while the
other httpx timeouts — `ConnectTimeout`, `WriteTimeout`, `PoolTimeout` —
propagate to the caller unwrapped, as raw httpx exceptions rather than the
dedicated timeout error. -/
theorem C9_read_timeout_dedicated_others_propagate (base_url : String)
    (transport : Transport) (path : String) (params : PyValue) (msg : String) :
    (transport (mkRequest base_url path params) = .readTimeout msg →
      request_handler_get base_url transport path params = .error (.timeout msg) ∧
      ∀ s, request_handler_get base_url transport path params ≠ .error (.unknown s)) ∧
    (transport (mkRequest base_url path params) = .connectTimeout msg →
      request_handler_get base_url transport path params =
        .error (.httpxError "ConnectTimeout" msg) ∧
      ∀ m, request_handler_get base_url transport path params ≠ .error (.timeout m)) ∧
    (transport (mkRequest base_url path params) = .writeTimeout msg →
      request_handler_get base_url transport path params =
        .error (.httpxError "WriteTimeout" msg) ∧
      ∀ m, request_handler_get base_url transport path params ≠ .error (.timeout m)) ∧
    (transport (mkRequest base_url path params) = .poolTimeout msg →
      request_handler_get base_url transport path params =
        .error (.httpxError "PoolTimeout" msg) ∧
      ∀ m, request_handler_get base_url transport path params ≠ .error (.timeout m)) := by
  refine ⟨fun h => ?_, fun h => ?_, fun h => ?_, fun h => ?_⟩
  · have h1 : request_handler_get base_url transport path params = .error (.timeout msg) := by
      simp [request_handler_get, h]
    refine ⟨h1, fun s hc => ?_⟩
    rw [h1] at hc
    exact PCError.noConfusion (Except.error.inj hc)
  · have h1 : request_handler_get base_url transport path params =
        .error (.httpxError "ConnectTimeout" msg) := by
      simp [request_handler_get, h]
    refine ⟨h1, fun m hc => ?_⟩
    rw [h1] at hc
    exact PCError.noConfusion (Except.error.inj hc)
  · have h1 : request_handler_get base_url transport path params =
        .error (.httpxError "WriteTimeout" msg) := by
      simp [request_handler_get, h]
    refine ⟨h1, fun m hc => ?_⟩
    rw [h1] at hc
    exact PCError.noConfusion (Except.error.inj hc)
  · have h1 : request_handler_get base_url transport path params =
        .error (.httpxError "PoolTimeout" msg) := by
      simp [request_handler_get, h]
    refine ⟨h1, fun m hc => ?_⟩
    rw [h1] at hc
    exact PCError.noConfusion (Except.error.inj hc)

/-- Witness for the amended C9: one transport per timeout kind — the read
timeout becomes the dedicated timeout error with the transport's message,
and the connect, write and pool timeouts come back as raw httpx
exceptions. -/
theorem C9_read_timeout_dedicated_others_propagate_witness :
    request_handler_get "https://api" (fun _ => TransportResult.readTimeout "read timed out")
        "blocks" PyValue.none = .error (.timeout "read timed out") ∧
    request_handler_get "https://api"
        (fun _ => TransportResult.connectTimeout "connect timed out") "blocks" PyValue.none =
      .error (.httpxError "ConnectTimeout" "connect timed out") ∧
    request_handler_get "https://api"
        (fun _ => TransportResult.writeTimeout "write timed out") "blocks" PyValue.none =
      .error (.httpxError "WriteTimeout" "write timed out") ∧
    request_handler_get "https://api"
        (fun _ => TransportResult.poolTimeout "pool timed out") "blocks" PyValue.none =
      .error (.httpxError "PoolTimeout" "pool timed out") :=
  ⟨((C9_read_timeout_dedicated_others_propagate "https://api" _ "blocks" PyValue.none
      "read timed out").1 rfl).1,
   ((C9_read_timeout_dedicated_others_propagate "https://api" _ "blocks" PyValue.none
      "connect timed out").2.1 rfl).1,
   ((C9_read_timeout_dedicated_others_propagate "https://api" _ "blocks" PyValue.none
      "write timed out").2.2.1 rfl).1,
   ((C9_read_timeout_dedicated_others_propagate "https://api" _ "blocks" PyValue.none
      "pool timed out").2.2.2 rfl).1⟩

/-- C8: `SubpathClient.get` exposes a bare JSON list returned by the
request handler as the mapping with that list under `items`, and returns a
mapping unchanged. -/
theorem C8_bare_list_normalization :
    (∀ (base_url : String) (transport : Transport) (subpath : String) (path : Option String)
        (params : PyValue) (l : List Json) (text : String),
      transport (mkRequest base_url (full_path_of subpath path) params) =
          .success ⟨200, Json.arr l, text⟩ →
      (subpath_get base_url transport subpath path params).1 =
        .ok (Json.obj [("items", Json.arr l)])) ∧
    (∀ (base_url : String) (transport : Transport) (subpath : String) (path : Option String)
        (params : PyValue) (fields : List (String × Json)) (text : String),
      transport (mkRequest base_url (full_path_of subpath path) params) =
          .success ⟨200, Json.obj fields, text⟩ →
      (subpath_get base_url transport subpath path params).1 = .ok (Json.obj fields)) := by
  constructor
  · intro base_url transport subpath path params l text h
    simp [subpath_get, request_handler_get, h, _check_result, wrap_list_response, Except.map]
  · intro base_url transport subpath path params fields text h
    simp [subpath_get, request_handler_get, h, _check_result, wrap_list_response, Except.map]

/-- Witness for C8: a transport answering `[{"a": 1}]` is exposed as
`{"items": [{"a": 1}]}`, and one answering a mapping is exposed unchanged. -/
theorem C8_bare_list_normalization_witness :
    (subpath_get "https://api"
        (fun _ => TransportResult.success
          ⟨200, Json.arr [Json.obj [("a", Json.num 1)]], "raw"⟩)
        "addresses" Option.none PyValue.none).1 =
      .ok (Json.obj [("items", Json.arr [Json.obj [("a", Json.num 1)]])]) ∧
    (subpath_get "https://api"
        (fun _ => TransportResult.success ⟨200, Json.obj [("a", Json.num 1)], "raw"⟩)
        "addresses" Option.none PyValue.none).1 =
      .ok (Json.obj [("a", Json.num 1)]) :=
  ⟨C8_bare_list_normalization.1 "https://api" _ "addresses" Option.none PyValue.none
      [Json.obj [("a", Json.num 1)]] "raw" rfl,
   C8_bare_list_normalization.2 "https://api" _ "addresses" Option.none PyValue.none
      [("a", Json.num 1)] "raw" rfl⟩

/-- C1: contrary to the claim, `get_transactions(txn_filter=["pending"])`
issues its GET with an empty query-parameter dict: the `paginated` wrapper
discards the `txn_filter` keyword argument, and even a positionally passed
`txn_filter` is dropped because the body adds filters only under
`if params:` and the wrapper seeds `params` with the empty dict.  In both
call forms the single request issued carries no `filter` parameter. -/
theorem C1_txn_filter_never_sent (base_url : String) (transport : Transport) :
    (transactions_get_transactions base_url transport []
        [("txn_filter", PyValue.strList ["pending"])]).2 =
      [mkRequest base_url "transactions" (PyValue.dict [])] ∧
    (transactions_get_transactions base_url transport [PyValue.strList ["pending"]] []).2 =
      [mkRequest base_url "transactions" (PyValue.dict [])] ∧
    (mkRequest base_url "transactions" (PyValue.dict [])).params.dictKeys = [] :=
  ⟨rfl, rfl, rfl⟩

/-- C2: contrary to the claim, `get_blocks(block_type=["block","uncle"])`
issues its GET with an empty query-parameter dict, because the `paginated`
wrapper discards the `block_type` keyword argument.  Passed positionally
the same filter does reach the query as `type=block,uncle`, confirming
that only the keyword form is broken. -/
theorem C2_block_type_never_sent (base_url : String) (transport : Transport) :
    (blocks_get_blocks base_url transport []
        [("block_type", PyValue.strList ["block", "uncle"])]).2 =
      [mkRequest base_url "blocks" (PyValue.dict [])] ∧
    (blocks_get_blocks base_url transport [PyValue.strList ["block", "uncle"]] []).2 =
      [mkRequest base_url "blocks" (PyValue.dict [("type", PyValue.str "block,uncle")])] ∧
    (mkRequest base_url "blocks" (PyValue.dict [])).params.dictKeys = [] :=
  ⟨rfl, rfl, rfl⟩

/-- C3: the `paginated` wrapper is insensitive to every keyword argument
other than `next_page_params`: two calls of a wrapped method with the same
positional arguments whose keyword arguments agree on `next_page_params`
produce the same result and issue the same HTTP requests. -/
theorem C3_wrapper_discards_other_kwargs
    (func : List PyValue → PyValue → BodyResult) (args : List PyValue)
    (kw1 kw2 : List (String × PyValue))
    (h : lookupStr kw1 "next_page_params" = lookupStr kw2 "next_page_params") :
    paginated_call func args kw1 = paginated_call func args kw2 := by
  simp only [paginated_call, h]

/-- Witness for C3: calling `get_transactions` with `txn_filter=["pending"]`
as a keyword argument gives the very same result and requests as calling it
with no keyword arguments at all. -/
theorem C3_wrapper_discards_other_kwargs_witness :
    lookupStr [("txn_filter", PyValue.strList ["pending"])] "next_page_params" =
      lookupStr ([] : List (String × PyValue)) "next_page_params" ∧
    paginated_call
        (make_wrapped transactionsSig
          (transactions_get_transactions_body "https://api" okTransport))
        [] [("txn_filter", PyValue.strList ["pending"])] =
      paginated_call
        (make_wrapped transactionsSig
          (transactions_get_transactions_body "https://api" okTransport))
        [] [] :=
  ⟨rfl,
   C3_wrapper_discards_other_kwargs
     (make_wrapped transactionsSig
       (transactions_get_transactions_body "https://api" okTransport))
     [] [("txn_filter", PyValue.strList ["pending"])] [] rfl⟩

/-- C4: every invocation of the decorated
`SmartContractsClient.get_smart_contracts` raises a TypeError before any
HTTP request is issued: the wrapper calls the wrapped function with a
`params` keyword argument, which its signature (`query`,
`contract_filters`, no `**kwargs`) does not accept — and with more than
two positional arguments the binding fails with a TypeError as well. -/
theorem C4_get_smart_contracts_type_error (base_url : String) (transport : Transport)
    (args : List PyValue) (kwargs : List (String × PyValue)) :
    (∃ m, (smart_contracts_get_smart_contracts base_url transport args kwargs).1 =
      .error (.typeError m)) ∧
    (smart_contracts_get_smart_contracts base_url transport args kwargs).2 = [] := by
  rcases args with _ | ⟨a, args⟩
  · exact ⟨⟨_, rfl⟩, rfl⟩
  rcases args with _ | ⟨b, args⟩
  · exact ⟨⟨_, rfl⟩, rfl⟩
  rcases args with _ | ⟨c, args⟩
  · exact ⟨⟨_, rfl⟩, rfl⟩
  · exact ⟨⟨_, rfl⟩, rfl⟩

/-- C7 (counterexample): the claim fails for `TokensClient.get_tokens`: a
call with `next_page_params={"block_number": 100}` issues its request with
the query parameters `block_number` and `q` — the body adds the search
query to the seed — so the query parameters are not exactly the
`next_page_params` fields. -/
theorem C7_counterexample :
    (tokens_get_tokens "https://api" okTransport [PyValue.str "pulse"]
        [("next_page_params", PyValue.dict [("block_number", PyValue.int 100)])]).2 =
      [mkRequest "https://api" "tokens"
        (PyValue.dict [("block_number", PyValue.int 100), ("q", PyValue.str "pulse")])] ∧
    (PyValue.dict [("block_number", PyValue.int 100),
        ("q", PyValue.str "pulse")]).dictKeys = ["block_number", "q"] ∧
    (["block_number", "q"] : List String) ≠ ["block_number"] :=
  ⟨rfl, rfl, by decide⟩

/-- C7 (amended): the `paginated` wrapper seeds the wrapped call's `params`
with the empty dict when no `next_page_params` keyword is passed, and
passes a supplied `next_page_params` value through as the `params` seed;
for `BlocksClient.get_blocks` (whose body adds nothing when no block type
is given) the resulting HTTP request's query parameters are exactly the
seeded fields.  Other wrapped methods may add their own parameters to the
seed, so exactness holds per method, not universally. -/
theorem C7_wrapper_seed_roundtrip :
    (∀ (func : List PyValue → PyValue → BodyResult) (args : List PyValue),
      paginated_call func args [] =
        (page_wrap1 (func args (PyValue.dict [])).1, (func args (PyValue.dict [])).2)) ∧
    (∀ (func : List PyValue → PyValue → BodyResult) (args : List PyValue) (v : PyValue)
        (rest : List (String × PyValue)),
      paginated_call func args (("next_page_params", v) :: rest) =
        (page_wrap1 (func args v).1, (func args v).2)) ∧
    (∀ (base_url : String) (transport : Transport),
      (blocks_get_blocks base_url transport [] []).2 =
        [mkRequest base_url "blocks" (PyValue.dict [])]) ∧
    (∀ (base_url : String) (transport : Transport) (d : List (String × PyValue)),
      (blocks_get_blocks base_url transport []
          [("next_page_params", PyValue.dict d)]).2 =
        [mkRequest base_url "blocks" (PyValue.dict d)]) := by
  refine ⟨fun func args => rfl, fun func args v rest => ?_, fun b t => rfl, fun b t d => ?_⟩
  · simp [paginated_call, lookupStr]
  · cases d
    · rfl
    · rfl

theorem addListFilter_error (params : PyValue) (key : String) (a : String) (l : List String)
    (validator : List String → Except PCError String) (e : PCError)
    (hval : validator (a :: l) = .error e) :
    addListFilter params key (PyValue.strList (a :: l)) validator = .error e := by
  simp [addListFilter, PyValue.truthy, PyValue.asStrIter, hval]

theorem blocks_body_error (base_url : String) (transport : Transport)
    (env extra : List (String × PyValue)) (e : PCError)
    (h : addListFilter (if (getArg env "params").truthy then getArg env "params"
        else PyValue.dict []) "type" (getArg env "block_type") validate_block_type =
      .error e) :
    blocks_get_blocks_body base_url transport env extra = (.error e, []) := by
  simp only [blocks_get_blocks_body]
  rw [h]

theorem tokens_body_error (base_url : String) (transport : Transport)
    (env extra : List (String × PyValue)) (e : PCError) (p1 : PyValue)
    (hset : setItem (if (getArg env "params").truthy then getArg env "params"
        else PyValue.dict []) "q" (getArg env "name_query") = .ok p1)
    (h : addListFilter p1 "type" (getArg env "token_type") validate_token_type = .error e) :
    tokens_get_tokens_body base_url transport env extra = (.error e, []) := by
  simp only [tokens_get_tokens_body]
  rw [hset]
  dsimp only
  rw [h]

theorem addresses_token_transfers_body_error (base_url : String) (transport : Transport)
    (env extra : List (String × PyValue)) (e : PCError)
    (h : addListFilter ((lookupStr extra "params").getD (PyValue.dict []))
        "token_type" (getArg env "token_type") validate_token_type = .error e) :
    addresses_get_token_transfers_body base_url transport env extra = (.error e, []) := by
  simp only [addresses_get_token_transfers_body]
  rw [h]

/-- C10: in the cited resource-client methods a validator failure raises
`PulseChainBadParamException` before the request handler runs: when the
filter argument (passed positionally, so that it reaches the wrapped
function) is rejected by its validator, the call raises that error and
the list of issued HTTP requests is empty. -/
theorem C10_validation_precedes_request :
    (∀ (base_url : String) (transport : Transport) (bt : List String)
        (kwargs : List (String × PyValue)) (e : PCError), bt ≠ [] →
      validate_block_type bt = .error e →
      blocks_get_blocks base_url transport [PyValue.strList bt] kwargs = (.error e, [])) ∧
    (∀ (base_url : String) (transport : Transport) (q : String) (tt : List String)
        (d : List (String × PyValue)) (e : PCError), tt ≠ [] →
      validate_token_type tt = .error e →
      tokens_get_tokens base_url transport [PyValue.str q, PyValue.strList tt]
        [("next_page_params", PyValue.dict d)] = (.error e, [])) ∧
    (∀ (base_url : String) (transport : Transport) (addr : String) (tt : List String)
        (d : List (String × PyValue)) (e : PCError), tt ≠ [] →
      validate_token_type tt = .error e →
      addresses_get_token_transfers base_url transport
        [PyValue.str addr, PyValue.strList tt]
        [("next_page_params", PyValue.dict d)] = (.error e, [])) := by
  refine ⟨?_, ?_, ?_⟩
  · intro base_url transport bt kwargs e hbt hval
    cases bt with
    | nil => exact absurd rfl hbt
    | cons a l =>
      have hbody := blocks_body_error base_url transport
        [("block_type", PyValue.strList (a :: l)),
         ("params", (lookupStr kwargs "next_page_params").getD (PyValue.dict []))] [] e
        (addListFilter_error _ _ _ _ _ _ hval)
      calc blocks_get_blocks base_url transport [PyValue.strList (a :: l)] kwargs
          = (page_wrap1 (blocks_get_blocks_body base_url transport
              [("block_type", PyValue.strList (a :: l)),
               ("params", (lookupStr kwargs "next_page_params").getD (PyValue.dict []))] []).1,
             (blocks_get_blocks_body base_url transport
              [("block_type", PyValue.strList (a :: l)),
               ("params", (lookupStr kwargs "next_page_params").getD (PyValue.dict []))] []).2) :=
            rfl
        _ = (.error e, []) := by rw [hbody]; rfl
  · intro base_url transport q tt d e htt hval
    cases tt with
    | nil => exact absurd rfl htt
    | cons a l =>
      rcases d with _ | ⟨x, xs⟩
      · have hbody := tokens_body_error base_url transport
          [("name_query", PyValue.str q), ("token_type", PyValue.strList (a :: l)),
           ("params", PyValue.dict [])] [] e _ rfl
          (addListFilter_error _ _ _ _ _ _ hval)
        calc tokens_get_tokens base_url transport [PyValue.str q, PyValue.strList (a :: l)]
              [("next_page_params", PyValue.dict [])]
            = (page_wrap1 (tokens_get_tokens_body base_url transport
                [("name_query", PyValue.str q), ("token_type", PyValue.strList (a :: l)),
                 ("params", PyValue.dict [])] []).1,
               (tokens_get_tokens_body base_url transport
                [("name_query", PyValue.str q), ("token_type", PyValue.strList (a :: l)),
                 ("params", PyValue.dict [])] []).2) := rfl
          _ = (.error e, []) := by rw [hbody]; rfl
      · have hbody := tokens_body_error base_url transport
          [("name_query", PyValue.str q), ("token_type", PyValue.strList (a :: l)),
           ("params", PyValue.dict ((x :: xs)))] [] e _ rfl
          (addListFilter_error _ _ _ _ _ _ hval)
        calc tokens_get_tokens base_url transport [PyValue.str q, PyValue.strList (a :: l)]
              [("next_page_params", PyValue.dict (x :: xs))]
            = (page_wrap1 (tokens_get_tokens_body base_url transport
                [("name_query", PyValue.str q), ("token_type", PyValue.strList (a :: l)),
                 ("params", PyValue.dict (x :: xs))] []).1,
               (tokens_get_tokens_body base_url transport
                [("name_query", PyValue.str q), ("token_type", PyValue.strList (a :: l)),
                 ("params", PyValue.dict (x :: xs))] []).2) := rfl
          _ = (.error e, []) := by rw [hbody]; rfl
  · intro base_url transport addr tt d e htt hval
    cases tt with
    | nil => exact absurd rfl htt
    | cons a l =>
      have hbody := addresses_token_transfers_body_error base_url transport
        [("address", PyValue.str addr), ("token_type", PyValue.strList (a :: l)),
         ("txn_filter", PyValue.none), ("token", PyValue.none)]
        [("params", PyValue.dict d)] e
        (addListFilter_error _ _ _ _ _ _ hval)
      calc addresses_get_token_transfers base_url transport
            [PyValue.str addr, PyValue.strList (a :: l)]
            [("next_page_params", PyValue.dict d)]
          = (page_wrap1 (addresses_get_token_transfers_body base_url transport
              [("address", PyValue.str addr), ("token_type", PyValue.strList (a :: l)),
               ("txn_filter", PyValue.none), ("token", PyValue.none)]
              [("params", PyValue.dict d)]).1,
             (addresses_get_token_transfers_body base_url transport
              [("address", PyValue.str addr), ("token_type", PyValue.strList (a :: l)),
               ("txn_filter", PyValue.none), ("token", PyValue.none)]
              [("params", PyValue.dict d)]).2) := rfl
        _ = (.error e, []) := by rw [hbody]; rfl

/-- Witness for C10: a bogus filter value makes each of the three cited
methods raise the parameter error while issuing no HTTP request at all. -/
theorem C10_validation_precedes_request_witness :
    blocks_get_blocks "https://api" okTransport [PyValue.strList ["bogus"]] [] =
      (.error (.badParam "block_type must be one of block, uncle, or reorg"), []) ∧
    tokens_get_tokens "https://api" okTransport [PyValue.str "pulse", PyValue.strList ["bogus"]]
        [("next_page_params", PyValue.dict [])] =
      (.error (.badParam "token_type must be one of ERC-20, ERC-721, or ERC-1155"), []) ∧
    addresses_get_token_transfers "https://api" okTransport
        [PyValue.str "0xabc", PyValue.strList ["bogus"]]
        [("next_page_params", PyValue.dict [])] =
      (.error (.badParam "token_type must be one of ERC-20, ERC-721, or ERC-1155"), []) :=
  ⟨C10_validation_precedes_request.1 "https://api" okTransport ["bogus"] [] _ (by decide) rfl,
   C10_validation_precedes_request.2.1 "https://api" okTransport "pulse" ["bogus"] [] _
     (by decide) rfl,
   C10_validation_precedes_request.2.2 "https://api" okTransport "0xabc" ["bogus"] [] _
     (by decide) rfl⟩
